import Mathlib

/-!
Shallow embedding of `src/createlib.py` (class `RustProject`).

The Python class shells out to the `cargo` toolchain and touches the
filesystem.  We embed it as pure functions over:

* `RustProject` — the instance state (`project_name`, `project_type`,
  `project_path`, `dependencies`);
* `Env` — an oracle fixing the outcome of each external interaction for one
  method call: whether the `cargo` executable is on the search path
  (`cargoInstalled`), and the exit status of each subprocess invocation
  (`versionOk` for `cargo --version`, `newOk` for `cargo new`, `addOk k` for
  the k-th `cargo add`, `runOk` for `cargo run`);
* `Event` — an observable effect trace: processes spawned (with command line
  and working directory), messages printed, file writes, recursive directory
  removals;
* `PRes` — the result of a method: normal return with a value and a trace, or
  a propagating Python exception with the trace produced before it escaped.

`subprocess.run(cmd, check=True)` raises `FileNotFoundError` (no process is
spawned) when the executable is absent, and `CalledProcessError` (the process
was spawned and exited non-zero) otherwise on failure; `str(e)` of a
`CalledProcessError` is rendered by `cpeStr`, an abstraction of CPython's
message that keeps the failing command line.
-/

inductive PyError where
  | fileNotFoundError
  | calledProcessError (cmd : List String)
deriving DecidableEq, Repr

inductive Event where
  | spawn (cmd : List String) (cwd : Option String)
  | print (msg : String)
  | fsWrite (path : String) (content : String)
  | rmtree (path : String)
deriving DecidableEq, Repr

inductive PRes (α : Type) where
  | ok (a : α) (tr : List Event)
  | err (e : PyError) (tr : List Event)
deriving DecidableEq, Repr

/-- Instance state of the Python class `RustProject` (`__init__`, lines 6-19). -/
structure RustProject where
  project_name : String
  project_type : String
  project_path : Option String
  dependencies : List String
deriving DecidableEq, Repr

/-- Outcome oracle for the external world during one method call. -/
structure Env where
  cargoInstalled : Bool
  versionOk : Bool
  newOk : Bool
  addOk : Nat → Bool
  runOk : Bool

/-- Rendering of `str(e)` for a `subprocess.CalledProcessError e` (the exact
CPython wording is abstracted; what matters is that it carries the failing
command). -/
def cpeStr (cmd : List String) : String :=
  "Command " ++ String.intercalate " " cmd ++ " returned non-zero exit status."

def cargoMissingMsg : String :=
  "Error: Cargo is not installed. Please install Rust and Cargo."

def notCreatedMsg : String :=
  "Error: Rust project not created."

/-- `os.path.join` for two components (POSIX). -/
def osPathJoin (a b : String) : String :=
  if b.startsWith "/" then b
  else if a = "" ∨ a.endsWith "/" then a ++ b
  else a ++ "/" ++ b

/-- `subprocess.run(cmd, check=True, cwd=cwd)`: raises `FileNotFoundError`
without spawning when the executable is absent; otherwise spawns the process
and raises `CalledProcessError` when `ok` is false. -/
def subprocessRun (installed ok : Bool) (cmd : List String) (cwd : Option String) :
    PRes Unit :=
  if installed then
    if ok then PRes.ok () [Event.spawn cmd cwd]
    else PRes.err (PyError.calledProcessError cmd) [Event.spawn cmd cwd]
  else PRes.err PyError.fileNotFoundError []

/-- `RustProject._check_cargo_installed` (lines 21-32): runs
`cargo --version`, catches only `FileNotFoundError` (prints a diagnostic and
returns `False`); success returns `True`; any other error propagates. -/
def check_cargo_installed (env : Env) : PRes Bool :=
  match subprocessRun env.cargoInstalled env.versionOk ["cargo", "--version"] none with
  | PRes.ok _ tr => PRes.ok true tr
  | PRes.err PyError.fileNotFoundError tr =>
      PRes.ok false (tr ++ [Event.print cargoMissingMsg])
  | PRes.err e tr => PRes.err e tr

/-- The `for dependency in self.dependencies` loop body of
`_add_dependencies` (lines 67-68): runs `cargo add dependency` with
`cwd=self.project_path`, aborting at the first raised error.  `k` counts the
invocations already made, so `addOk k` is the k-th exit status. -/
def addDepsLoop (path : Option String) (installed : Bool) (addOk : Nat → Bool) :
    List String → Nat → PRes Unit
  | [], _ => PRes.ok () []
  | d :: rest, k =>
    match subprocessRun installed (addOk k) ["cargo", "add", d] path with
    | PRes.ok _ tr =>
      match addDepsLoop path installed addOk rest (k + 1) with
      | PRes.ok _ tr2 => PRes.ok () (tr ++ tr2)
      | PRes.err e tr2 => PRes.err e (tr ++ tr2)
    | PRes.err e tr => PRes.err e tr

/-- `RustProject._add_dependencies` (lines 55-70): no-op on an empty list;
otherwise runs the loop inside a `try` that catches `CalledProcessError` and
prints a diagnostic (so partial application is kept, nothing is rolled back). -/
def add_dependencies (s : RustProject) (env : Env) : PRes RustProject :=
  if s.dependencies = [] then PRes.ok s []
  else
    match addDepsLoop s.project_path env.cargoInstalled env.addOk s.dependencies 0 with
    | PRes.ok _ tr => PRes.ok s tr
    | PRes.err (PyError.calledProcessError c) tr =>
        PRes.ok s (tr ++ [Event.print ("Error adding dependency: " ++ cpeStr c)])
    | PRes.err e tr => PRes.err e tr

/-- `RustProject.create_project` (lines 34-53): aborts if cargo is missing;
runs `cargo new --lib|--bin name`; on success records the path (the project
name) and adds dependencies; a `CalledProcessError` from the `try` block is
caught and reported with the project type. -/
def create_project (s : RustProject) (env : Env) : PRes RustProject :=
  match check_cargo_installed env with
  | PRes.err e tr => PRes.err e tr
  | PRes.ok false tr => PRes.ok s tr
  | PRes.ok true tr =>
    let flag := if s.project_type = "lib" then "--lib" else "--bin"
    match subprocessRun env.cargoInstalled env.newOk ["cargo", "new", flag, s.project_name] none with
    | PRes.ok _ tr2 =>
      let s1 := { s with project_path := some s.project_name }
      match add_dependencies s1 env with
      | PRes.ok s2 tr3 => PRes.ok s2 (tr ++ tr2 ++ tr3)
      | PRes.err (PyError.calledProcessError c) tr3 =>
          PRes.ok s1 (tr ++ tr2 ++ tr3 ++
            [Event.print ("Error creating new Rust " ++ s.project_type ++ " project: " ++ cpeStr c)])
      | PRes.err e tr3 => PRes.err e (tr ++ tr2 ++ tr3)
    | PRes.err (PyError.calledProcessError c) tr2 =>
        PRes.ok s (tr ++ tr2 ++
          [Event.print ("Error creating new Rust " ++ s.project_type ++ " project: " ++ cpeStr c)])
    | PRes.err e tr2 => PRes.err e (tr ++ tr2)

/-- `RustProject.write_code` (lines 72-91): refuses when no project is
created; otherwise overwrites `<path>/src/lib.rs` (type `"lib"`) or
`<path>/src/main.rs` (any other type) with the given code. -/
def write_code (s : RustProject) (rust_code : String) : PRes RustProject :=
  match s.project_path with
  | none => PRes.ok s [Event.print notCreatedMsg]
  | some p =>
    let src_file_name := if s.project_type = "lib" then "lib.rs" else "main.rs"
    PRes.ok s [Event.fsWrite (osPathJoin (osPathJoin p "src") src_file_name) rust_code]

/-- `RustProject.build_and_run` (lines 93-112): refuses when no project is
created or cargo is missing; otherwise runs `cargo run` with the project path
as working directory, reporting a `CalledProcessError` as a diagnostic. -/
def build_and_run (s : RustProject) (env : Env) : PRes RustProject :=
  match s.project_path with
  | none => PRes.ok s [Event.print notCreatedMsg]
  | some p =>
    match check_cargo_installed env with
    | PRes.err e tr => PRes.err e tr
    | PRes.ok false tr => PRes.ok s tr
    | PRes.ok true tr =>
      match subprocessRun env.cargoInstalled env.runOk ["cargo", "run"] (some p) with
      | PRes.ok _ tr2 => PRes.ok s (tr ++ tr2)
      | PRes.err (PyError.calledProcessError c) tr2 =>
          PRes.ok s (tr ++ tr2 ++ [Event.print ("Error running Rust code: " ++ cpeStr c)])
      | PRes.err e tr2 => PRes.err e (tr ++ tr2)

/-- `RustProject.cleanup` (lines 114-124): no-op when no project is recorded;
otherwise `shutil.rmtree` on the project path and reset the path to `None`. -/
def cleanup (s : RustProject) : PRes RustProject :=
  match s.project_path with
  | none => PRes.ok s []
  | some p => PRes.ok { s with project_path := none } [Event.rmtree p]

/-- The filesystem, as a map from file paths to contents. -/
def FS : Type := String → Option String

/-- Effect of one trace event on the filesystem: a write replaces the file's
entire contents; `rmtree p` removes `p` and everything under it. -/
def applyEvent (fs : FS) : Event → FS
  | Event.fsWrite p c => fun q => if q = p then some c else fs q
  | Event.rmtree p => fun q => if q = p ∨ (p ++ "/").isPrefixOf q then none else fs q
  | _ => fs

def applyEvents (fs : FS) (evs : List Event) : FS :=
  evs.foldl applyEvent fs

/-- The public operations of a `RustProject` instance. -/
inductive Op where
  | create
  | writeCode (code : String)
  | buildAndRun
  | cleanupOp
deriving DecidableEq

/-- One public method call, under the environment its external interactions
see. -/
def step (s : RustProject) (a : Op × Env) : PRes RustProject :=
  match a.1 with
  | Op.create => create_project s a.2
  | Op.writeCode c => write_code s c
  | Op.buildAndRun => build_and_run s a.2
  | Op.cleanupOp => cleanup s

/-- Run a sequence of public method calls; a propagating exception crashes the
process, so later calls never run (the state at the crash is returned). -/
def runOps (s : RustProject) : List (Op × Env) → RustProject
  | [] => s
  | a :: rest =>
    match step s a with
    | PRes.ok s2 _ => runOps s2 rest
    | PRes.err _ _ => s

/-- A call that is a `create_project` whose toolchain check and
`cargo new` both succeed. -/
def isSuccCreate (a : Op × Env) : Bool :=
  (match a.1 with | Op.create => true | _ => false)
    && a.2.cargoInstalled && a.2.versionOk && a.2.newOk

def isCleanupCall (a : Op × Env) : Bool :=
  match a.1 with | Op.cleanupOp => true | _ => false

def hasCleanup (l : List (Op × Env)) : Bool :=
  l.any isCleanupCall

/-- Some `create_project` in the sequence succeeds with no `cleanup`
after it. -/
def liveCreate : List (Op × Env) → Bool
  | [] => false
  | a :: rest => (isSuccCreate a && !hasCleanup rest) || liveCreate rest

/-! Helper lemmas -/

lemma addDepsLoop_installed_no_fnf (path : Option String) (addOk : Nat → Bool)
    (deps : List String) (k : Nat) :
    (∃ tr, addDepsLoop path true addOk deps k = PRes.ok () tr) ∨
      (∃ c tr, addDepsLoop path true addOk deps k
        = PRes.err (PyError.calledProcessError c) tr) := by
  induction deps generalizing k with
  | nil => exact Or.inl ⟨[], rfl⟩
  | cons d rest ih =>
    cases h : addOk k with
    | false =>
      refine Or.inr ⟨["cargo", "add", d], [Event.spawn ["cargo", "add", d] path], ?_⟩
      simp [addDepsLoop, subprocessRun, h]
    | true =>
      rcases ih (k + 1) with ⟨tr, htr⟩ | ⟨c, tr, htr⟩
      · refine Or.inl ⟨Event.spawn ["cargo", "add", d] path :: tr, ?_⟩
        simp [addDepsLoop, subprocessRun, h, htr]
      · refine Or.inr ⟨c, Event.spawn ["cargo", "add", d] path :: tr, ?_⟩
        simp [addDepsLoop, subprocessRun, h, htr]

lemma add_dependencies_ok (s : RustProject) (env : Env)
    (hi : env.cargoInstalled = true) :
    ∃ tr, add_dependencies s env = PRes.ok s tr := by
  by_cases hd : s.dependencies = []
  · exact ⟨[], by simp [add_dependencies, hd]⟩
  · rcases addDepsLoop_installed_no_fnf s.project_path env.addOk s.dependencies 0 with
      ⟨tr, htr⟩ | ⟨c, tr, htr⟩
    · exact ⟨tr, by simp [add_dependencies, hd, hi, htr]⟩
    · refine ⟨tr ++ [Event.print ("Error adding dependency: " ++ cpeStr c)], ?_⟩
      simp [add_dependencies, hd, hi, htr]

lemma create_project_success (s : RustProject) (env : Env)
    (hi : env.cargoInstalled = true) (hv : env.versionOk = true)
    (hn : env.newOk = true) :
    ∃ tr, create_project s env
      = PRes.ok { s with project_path := some s.project_name } tr := by
  rcases add_dependencies_ok { s with project_path := some s.project_name } env hi with
    ⟨tr3, h3⟩
  refine ⟨Event.spawn ["cargo", "--version"] none ::
    Event.spawn ["cargo", "new", if s.project_type = "lib" then "--lib" else "--bin",
      s.project_name] none :: tr3, ?_⟩
  simp [create_project, check_cargo_installed, subprocessRun, hi, hv, hn, h3]

/-! Shared concrete environments for witnesses -/

def envT : Env := ⟨true, true, true, fun _ => true, true⟩

def envNoCargo : Env := ⟨false, true, true, fun _ => true, true⟩

def envNewFail : Env := ⟨true, true, false, fun _ => true, true⟩

/-! Claim theorems -/

/-- Claim C9: `_check_cargo_installed` returns false with a diagnostic and no
exception exactly when the cargo executable cannot be located; a non-zero exit
of the version query propagates as an unhandled error; a successful invocation
returns true. -/
theorem C9_check_cargo_characterization (env : Env) :
    check_cargo_installed env =
      (if env.cargoInstalled then
        (if env.versionOk then PRes.ok true [Event.spawn ["cargo", "--version"] none]
         else PRes.err (PyError.calledProcessError ["cargo", "--version"])
            [Event.spawn ["cargo", "--version"] none])
       else PRes.ok false [Event.print cargoMissingMsg]) := by
  cases hi : env.cargoInstalled <;> cases hv : env.versionOk <;>
    simp [check_cargo_installed, subprocessRun, hi, hv]

/-- Claim C5: `write_code` and `build_and_run` called while `project_path` is
unset only print a diagnostic: no file write, no subprocess, state returned
unchanged. -/
theorem C5_no_project_noop (s : RustProject) (env : Env) (code : String)
    (h : s.project_path = none) :
    write_code s code = PRes.ok s [Event.print notCreatedMsg]
      ∧ build_and_run s env = PRes.ok s [Event.print notCreatedMsg] :=
  ⟨by simp [write_code, h], by simp [build_and_run, h]⟩

theorem C5_witness :
    write_code ⟨"demo", "lib", none, []⟩ "pub fn hello() {}"
        = PRes.ok ⟨"demo", "lib", none, []⟩ [Event.print notCreatedMsg]
      ∧ build_and_run ⟨"demo", "lib", none, []⟩ envT
        = PRes.ok ⟨"demo", "lib", none, []⟩ [Event.print notCreatedMsg] :=
  C5_no_project_noop ⟨"demo", "lib", none, []⟩ envT "pub fn hello() {}" rfl

/-- Claim C6: `cleanup` with no project is a no-op (empty trace, state
unchanged); after a successful creation it emits exactly one recursive
directory removal of the project path, the path becomes `None` (everything
under the directory is gone from the filesystem), and a subsequent
`write_code` precondition check reports that no project is created. -/
theorem C6_cleanup (s : RustProject) (code : String) :
    (s.project_path = none → cleanup s = PRes.ok s [])
    ∧ (∀ p, s.project_path = some p →
        cleanup s = PRes.ok { s with project_path := none } [Event.rmtree p]
        ∧ write_code { s with project_path := none } code
            = PRes.ok { s with project_path := none } [Event.print notCreatedMsg]
        ∧ ∀ fs q, (q = p ∨ (p ++ "/").isPrefixOf q) →
            applyEvents fs [Event.rmtree p] q = none) := by
  refine ⟨fun h => by simp [cleanup, h], fun p hp => ⟨by simp [cleanup, hp], ?_, ?_⟩⟩
  · simp [write_code]
  · intro fs q hq
    simp [applyEvents, applyEvent, hq]

theorem C6_witness :
    cleanup ⟨"demo", "lib", some "demo", ["serde"]⟩
      = PRes.ok ⟨"demo", "lib", none, ["serde"]⟩ [Event.rmtree "demo"] :=
  ((C6_cleanup ⟨"demo", "lib", some "demo", ["serde"]⟩ "x").2 "demo" rfl).1

/-- Claim C8: with the cargo executable absent from the search path,
`_check_cargo_installed` returns false, and `create_project` spawns no
subprocess (its trace is a single diagnostic) and leaves `project_path`
unset. -/
theorem C8_no_cargo (n t : String) (d : List String) (env : Env)
    (h : env.cargoInstalled = false) :
    check_cargo_installed env = PRes.ok false [Event.print cargoMissingMsg]
      ∧ create_project ⟨n, t, none, d⟩ env
        = PRes.ok ⟨n, t, none, d⟩ [Event.print cargoMissingMsg] := by
  have hc : check_cargo_installed env = PRes.ok false [Event.print cargoMissingMsg] := by
    simp [check_cargo_installed, subprocessRun, h]
  exact ⟨hc, by simp [create_project, hc]⟩

theorem C8_witness :
    check_cargo_installed envNoCargo = PRes.ok false [Event.print cargoMissingMsg]
      ∧ create_project ⟨"demo", "lib", none, []⟩ envNoCargo
        = PRes.ok ⟨"demo", "lib", none, []⟩ [Event.print cargoMissingMsg] :=
  C8_no_cargo "demo" "lib" [] envNoCargo rfl

/-- Claim C4: when `cargo new` exits non-zero, `create_project` prints a
diagnostic containing the project type and the underlying error, leaves
`project_path` unset, and never invokes `_add_dependencies` (the trace holds
no `cargo add` spawn). -/
theorem C4_create_failure (n t : String) (d : List String) (env : Env)
    (hi : env.cargoInstalled = true) (hv : env.versionOk = true)
    (hn : env.newOk = false) :
    create_project ⟨n, t, none, d⟩ env = PRes.ok ⟨n, t, none, d⟩
      [Event.spawn ["cargo", "--version"] none,
       Event.spawn ["cargo", "new", if t = "lib" then "--lib" else "--bin", n] none,
       Event.print ("Error creating new Rust " ++ t ++ " project: "
          ++ cpeStr ["cargo", "new", if t = "lib" then "--lib" else "--bin", n])] := by
  simp [create_project, check_cargo_installed, subprocessRun, hi, hv, hn]

theorem C4_witness :
    create_project ⟨"demo", "lib", none, ["serde"]⟩ envNewFail
      = PRes.ok ⟨"demo", "lib", none, ["serde"]⟩
        [Event.spawn ["cargo", "--version"] none,
         Event.spawn ["cargo", "new", if "lib" = "lib" then "--lib" else "--bin", "demo"] none,
         Event.print ("Error creating new Rust " ++ "lib" ++ " project: "
            ++ cpeStr ["cargo", "new", if "lib" = "lib" then "--lib" else "--bin", "demo"])] :=
  C4_create_failure "demo" "lib" ["serde"] envNewFail rfl rfl rfl

/-- Claim C2: for both project kinds, after a successful `create_project`,
`write_code code` writes exactly `code` to `<path>/src/lib.rs` (Library) or
`<path>/src/main.rs` (Executable), replacing whatever the file held before. -/
theorem C2_write_code_target (n t : String) (d : List String) (env : Env)
    (code : String) (fs : FS) (ht : t = "lib" ∨ t = "bin")
    (hi : env.cargoInstalled = true) (hv : env.versionOk = true)
    (hn : env.newOk = true) :
    (∃ tr, create_project ⟨n, t, none, d⟩ env = PRes.ok ⟨n, t, some n, d⟩ tr)
    ∧ write_code ⟨n, t, some n, d⟩ code
        = PRes.ok ⟨n, t, some n, d⟩
          [Event.fsWrite
            (osPathJoin (osPathJoin n "src") (if t = "lib" then "lib.rs" else "main.rs"))
            code]
    ∧ applyEvents fs
        [Event.fsWrite
          (osPathJoin (osPathJoin n "src") (if t = "lib" then "lib.rs" else "main.rs"))
          code]
        (osPathJoin (osPathJoin n "src") (if t = "lib" then "lib.rs" else "main.rs"))
      = some code := by
  refine ⟨?_, by simp [write_code], by simp [applyEvents, applyEvent]⟩
  rcases create_project_success ⟨n, t, none, d⟩ env hi hv hn with ⟨tr, h⟩
  exact ⟨tr, h⟩

theorem C2_witness :
    ((∃ tr, create_project ⟨"demo", "lib", none, ["serde"]⟩ envT
        = PRes.ok ⟨"demo", "lib", some "demo", ["serde"]⟩ tr)
    ∧ write_code ⟨"demo", "lib", some "demo", ["serde"]⟩ "pub fn hello() {}"
        = PRes.ok ⟨"demo", "lib", some "demo", ["serde"]⟩
          [Event.fsWrite
            (osPathJoin (osPathJoin "demo" "src")
              (if "lib" = "lib" then "lib.rs" else "main.rs"))
            "pub fn hello() {}"]
    ∧ applyEvents (fun _ => none)
        [Event.fsWrite
          (osPathJoin (osPathJoin "demo" "src")
            (if "lib" = "lib" then "lib.rs" else "main.rs"))
          "pub fn hello() {}"]
        (osPathJoin (osPathJoin "demo" "src")
          (if "lib" = "lib" then "lib.rs" else "main.rs"))
      = some "pub fn hello() {}") :=
  C2_write_code_target "demo" "lib" ["serde"] envT "pub fn hello() {}" (fun _ => none)
    (Or.inl rfl) rfl rfl rfl

/-- Claim C7: `build_and_run` aborts with a diagnostic and no `cargo run`
spawn when the project is not created or cargo is missing; when both
preconditions hold it spawns `cargo run` with the project path as working
directory. -/
theorem C7_build_and_run (s : RustProject) (env : Env) (p : String) :
    (s.project_path = none →
      build_and_run s env = PRes.ok s [Event.print notCreatedMsg])
    ∧ (s.project_path = some p → env.cargoInstalled = false →
      build_and_run s env = PRes.ok s [Event.print cargoMissingMsg])
    ∧ (s.project_path = some p → env.cargoInstalled = true → env.versionOk = true →
      build_and_run s env = PRes.ok s
        ([Event.spawn ["cargo", "--version"] none, Event.spawn ["cargo", "run"] (some p)]
          ++ if env.runOk then []
             else [Event.print ("Error running Rust code: " ++ cpeStr ["cargo", "run"])])) := by
  refine ⟨fun h => by simp [build_and_run, h], fun hp hi => ?_, fun hp hi hv => ?_⟩
  · simp [build_and_run, hp, check_cargo_installed, subprocessRun, hi]
  · cases hr : env.runOk <;>
      simp [build_and_run, hp, check_cargo_installed, subprocessRun, hi, hv, hr]

theorem C7_witness :
    build_and_run ⟨"demo", "lib", some "demo", []⟩ envT
      = PRes.ok ⟨"demo", "lib", some "demo", []⟩
        ([Event.spawn ["cargo", "--version"] none, Event.spawn ["cargo", "run"] (some "demo")]
          ++ if envT.runOk then []
             else [Event.print ("Error running Rust code: " ++ cpeStr ["cargo", "run"])]) :=
  (C7_build_and_run ⟨"demo", "lib", some "demo", []⟩ envT "demo").2.2 rfl rfl rfl

/-- Claim C10: any `project_type` other than exactly `"lib"` is treated as an
executable project with no validation: `create_project` passes `--bin` to
`cargo new`, and `write_code` targets `main.rs`. -/
theorem C10_non_lib_is_bin (n t : String) (d : List String) (env : Env)
    (s : RustProject) (p code : String) (ht : t ≠ "lib")
    (hi : env.cargoInstalled = true) (hv : env.versionOk = true) :
    (∃ s2 rest, create_project ⟨n, t, none, d⟩ env
      = PRes.ok s2 (Event.spawn ["cargo", "--version"] none ::
          Event.spawn ["cargo", "new", "--bin", n] none :: rest))
    ∧ (s.project_type = t → s.project_path = some p →
      write_code s code = PRes.ok s
        [Event.fsWrite (osPathJoin (osPathJoin p "src") "main.rs") code]) := by
  constructor
  · cases hn : env.newOk with
    | true =>
      rcases add_dependencies_ok ⟨n, t, some n, d⟩ env hi with ⟨tr3, h3⟩
      refine ⟨⟨n, t, some n, d⟩, tr3, ?_⟩
      simp [create_project, check_cargo_installed, subprocessRun, hi, hv, hn, ht, h3]
    | false =>
      refine ⟨⟨n, t, none, d⟩,
        [Event.print ("Error creating new Rust " ++ t ++ " project: "
          ++ cpeStr ["cargo", "new", "--bin", n])], ?_⟩
      simp [create_project, check_cargo_installed, subprocessRun, hi, hv, hn, ht]
  · intro htype hp
    simp [write_code, hp, htype, ht]

theorem C10_witness :
    ((∃ s2 rest, create_project ⟨"demo", "binn", none, []⟩ envT
      = PRes.ok s2 (Event.spawn ["cargo", "--version"] none ::
          Event.spawn ["cargo", "new", "--bin", "demo"] none :: rest))
    ∧ ((⟨"demo", "binn", some "demo", []⟩ : RustProject).project_type = "binn" →
      (⟨"demo", "binn", some "demo", []⟩ : RustProject).project_path = some "demo" →
      write_code ⟨"demo", "binn", some "demo", []⟩ "fn main() {}"
        = PRes.ok ⟨"demo", "binn", some "demo", []⟩
          [Event.fsWrite (osPathJoin (osPathJoin "demo" "src") "main.rs") "fn main() {}"])) :=
  C10_non_lib_is_bin "demo" "binn" [] envT ⟨"demo", "binn", some "demo", []⟩
    "demo" "fn main() {}" (by decide) rfl rfl

/-! Lemmas for the dependency loop's first failure (C3) -/

lemma addDepsLoop_first_failure (path : Option String) (addOk : Nat → Bool)
    (deps : List String) (k k0 : Nat)
    (hk : k < deps.length)
    (h1 : ∀ i, i < k → addOk (k0 + i) = true)
    (h2 : addOk (k0 + k) = false) :
    addDepsLoop path true addOk deps k0 =
      PRes.err (PyError.calledProcessError ["cargo", "add", deps.getD k ""])
        ((List.range (k + 1)).map fun i =>
          Event.spawn ["cargo", "add", deps.getD i ""] path) := by
  induction deps generalizing k k0 with
  | nil => exact absurd hk (by simp)
  | cons d rest ih =>
    cases k with
    | zero =>
      have h0 : addOk k0 = false := by simpa using h2
      simp [addDepsLoop, subprocessRun, h0, List.range_succ, List.range_zero]
    | succ j =>
      have h0 : addOk k0 = true := by simpa using h1 0 (Nat.succ_pos j)
      have hjk : j < rest.length := by simpa using hk
      have h1' : ∀ i, i < j → addOk (k0 + 1 + i) = true := fun i hi => by
        have e : k0 + 1 + i = k0 + (i + 1) := by omega
        rw [e]; exact h1 (i + 1) (by omega)
      have h2' : addOk (k0 + 1 + j) = false := by
        have e : k0 + 1 + j = k0 + (j + 1) := by omega
        rw [e]; exact h2
      have hrec := ih j (k0 + 1) hjk h1' h2'
      rw [List.range_succ_eq_map]
      simp [addDepsLoop, subprocessRun, h0, hrec, List.map_map, Function.comp]

def envAddFail : Env := ⟨true, true, true, fun k => k == 0, true⟩

/-- Claim C3: `_add_dependencies` invokes `cargo add` on the entries in list
order; when the k-th invocation is the first to fail, the trace holds exactly
the spawns for entries `0..k` (so the strict prefix was applied, the k-th was
attempted, and the remaining entries were never attempted), followed by one
diagnostic; nothing is rolled back and the state is unchanged. -/
theorem C3_add_dependencies_first_failure (s : RustProject) (env : Env) (k : Nat)
    (hi : env.cargoInstalled = true) (hk : k < s.dependencies.length)
    (h1 : ∀ i, i < k → env.addOk i = true) (h2 : env.addOk k = false) :
    add_dependencies s env = PRes.ok s
      (((List.range (k + 1)).map fun i =>
          Event.spawn ["cargo", "add", s.dependencies.getD i ""] s.project_path)
        ++ [Event.print ("Error adding dependency: "
            ++ cpeStr ["cargo", "add", s.dependencies.getD k ""])]) := by
  have hne : s.dependencies ≠ [] := by
    intro h; rw [h] at hk; simp at hk
  have h1' : ∀ i, i < k → env.addOk (0 + i) = true := by simpa using h1
  have h2' : env.addOk (0 + k) = false := by simpa using h2
  have hloop := addDepsLoop_first_failure s.project_path env.addOk s.dependencies k 0
    hk h1' h2'
  simp [add_dependencies, hne, hi, hloop]

theorem C3_witness :
    add_dependencies ⟨"demo", "lib", some "demo", ["serde", "tokio"]⟩ envAddFail
      = PRes.ok ⟨"demo", "lib", some "demo", ["serde", "tokio"]⟩
        (((List.range (1 + 1)).map fun i =>
            Event.spawn ["cargo", "add",
              (⟨"demo", "lib", some "demo", ["serde", "tokio"]⟩ : RustProject).dependencies.getD i ""]
              (⟨"demo", "lib", some "demo", ["serde", "tokio"]⟩ : RustProject).project_path)
          ++ [Event.print ("Error adding dependency: "
              ++ cpeStr ["cargo", "add",
                (⟨"demo", "lib", some "demo", ["serde", "tokio"]⟩ : RustProject).dependencies.getD 1 ""])]) :=
  C3_add_dependencies_first_failure ⟨"demo", "lib", some "demo", ["serde", "tokio"]⟩
    envAddFail 1 rfl (by decide)
    (fun i hi => by
      have e : i = 0 := by omega
      subst e; rfl)
    rfl

/-! Lemmas for the created-state invariant (C1) -/

lemma create_project_new_failure (s : RustProject) (env : Env)
    (hi : env.cargoInstalled = true) (hv : env.versionOk = true)
    (hn : env.newOk = false) :
    create_project s env = PRes.ok s
      [Event.spawn ["cargo", "--version"] none,
       Event.spawn ["cargo", "new",
          if s.project_type = "lib" then "--lib" else "--bin", s.project_name] none,
       Event.print ("Error creating new Rust " ++ s.project_type ++ " project: "
          ++ cpeStr ["cargo", "new",
            if s.project_type = "lib" then "--lib" else "--bin", s.project_name])] := by
  simp [create_project, check_cargo_installed, subprocessRun, hi, hv, hn]

lemma step_characterization (s : RustProject) (a : Op × Env)
    (ha : a.2.cargoInstalled = true → a.2.versionOk = true) :
    ∃ s2 tr, step s a = PRes.ok s2 tr
      ∧ s2.project_name = s.project_name
      ∧ s2.project_path = (if isSuccCreate a then some s.project_name
          else if isCleanupCall a then none else s.project_path) := by
  rcases a with ⟨op, env⟩
  cases op with
  | create =>
    cases hi : env.cargoInstalled with
    | false =>
      refine ⟨s, [Event.print cargoMissingMsg], ?_, rfl, ?_⟩
      · simp [step, create_project, check_cargo_installed, subprocessRun, hi]
      · simp [isSuccCreate, isCleanupCall, hi]
    | true =>
      have hv : env.versionOk = true := ha hi
      cases hn : env.newOk with
      | false =>
        exact ⟨s, _, by simpa [step] using create_project_new_failure s env hi hv hn,
          rfl, by simp [isSuccCreate, isCleanupCall, hi, hv, hn]⟩
      | true =>
        rcases create_project_success s env hi hv hn with ⟨tr, h⟩
        refine ⟨{ s with project_path := some s.project_name }, tr, ?_, rfl, ?_⟩
        · simpa [step] using h
        · simp [isSuccCreate, isCleanupCall, hi, hv, hn]
  | writeCode c =>
    cases hp : s.project_path with
    | none =>
      exact ⟨s, [Event.print notCreatedMsg], by simp [step, write_code, hp], rfl,
        by simp [isSuccCreate, isCleanupCall, hp]⟩
    | some p =>
      exact ⟨s,
        [Event.fsWrite (osPathJoin (osPathJoin p "src")
          (if s.project_type = "lib" then "lib.rs" else "main.rs")) c],
        by simp [step, write_code, hp], rfl,
        by simp [isSuccCreate, isCleanupCall, hp]⟩
  | buildAndRun =>
    cases hp : s.project_path with
    | none =>
      exact ⟨s, [Event.print notCreatedMsg], by simp [step, build_and_run, hp], rfl,
        by simp [isSuccCreate, isCleanupCall, hp]⟩
    | some p =>
      cases hi : env.cargoInstalled with
      | false =>
        exact ⟨s, [Event.print cargoMissingMsg],
          by simp [step, build_and_run, hp, check_cargo_installed, subprocessRun, hi], rfl,
          by simp [isSuccCreate, isCleanupCall, hp, hi]⟩
      | true =>
        have hv : env.versionOk = true := ha hi
        cases hr : env.runOk with
        | true =>
          exact ⟨s, [Event.spawn ["cargo", "--version"] none,
              Event.spawn ["cargo", "run"] (some p)],
            by simp [step, build_and_run, hp, check_cargo_installed, subprocessRun, hi, hv, hr],
            rfl, by simp [isSuccCreate, isCleanupCall, hp]⟩
        | false =>
          exact ⟨s, [Event.spawn ["cargo", "--version"] none,
              Event.spawn ["cargo", "run"] (some p),
              Event.print ("Error running Rust code: " ++ cpeStr ["cargo", "run"])],
            by simp [step, build_and_run, hp, check_cargo_installed, subprocessRun, hi, hv, hr],
            rfl, by simp [isSuccCreate, isCleanupCall, hp]⟩
  | cleanupOp =>
    cases hp : s.project_path with
    | none =>
      exact ⟨s, [], by simp [step, cleanup, hp], rfl,
        by simp [isSuccCreate, isCleanupCall, hp]⟩
    | some p =>
      exact ⟨{ s with project_path := none }, [Event.rmtree p],
        by simp [step, cleanup, hp], rfl,
        by simp [isSuccCreate, isCleanupCall]⟩

lemma hasCleanup_cons (a : Op × Env) (l : List (Op × Env)) :
    hasCleanup (a :: l) = (isCleanupCall a || hasCleanup l) := by
  simp [hasCleanup]

lemma runOps_path_characterization (ops : List (Op × Env)) (s : RustProject)
    (h : ∀ a ∈ ops, a.2.cargoInstalled = true → a.2.versionOk = true) :
    (runOps s ops).project_name = s.project_name
    ∧ (runOps s ops).project_path =
      (if liveCreate ops then some s.project_name
       else if hasCleanup ops then none else s.project_path) := by
  induction ops generalizing s with
  | nil => simp [runOps, liveCreate, hasCleanup]
  | cons a rest ih =>
    have ha := h a (List.mem_cons_self a rest)
    have h' : ∀ b ∈ rest, b.2.cargoInstalled = true → b.2.versionOk = true :=
      fun b hb => h b (List.mem_cons_of_mem a hb)
    rcases step_characterization s a ha with ⟨s2, tr, hstep, hname, hpath⟩
    have hrun : runOps s (a :: rest) = runOps s2 rest := by simp [runOps, hstep]
    rcases ih s2 h' with ⟨ih1, ih2⟩
    constructor
    · rw [hrun, ih1, hname]
    · rw [hrun, ih2, hname, hpath]
      cases h1 : isSuccCreate a <;> cases h2 : isCleanupCall a <;>
        cases h3 : liveCreate rest <;> cases h4 : hasCleanup rest <;>
        simp [liveCreate, hasCleanup_cons, h1, h2, h3, h4]

/-- Claim C1: starting from a fresh instance, after any sequence of public
method calls (in environments whose version query does not crash the
process), `project_path` is set if and only if some `create_project` in the
sequence succeeded with no `cleanup` after it — so only a successful
`create_project` sets the path and only `cleanup` clears it. -/
theorem C1_path_iff_live_create (n t : String) (d : List String)
    (ops : List (Op × Env))
    (h : ∀ a ∈ ops, a.2.cargoInstalled = true → a.2.versionOk = true) :
    (runOps ⟨n, t, none, d⟩ ops).project_path
      = (if liveCreate ops then some n else none) := by
  rcases runOps_path_characterization ops ⟨n, t, none, d⟩ h with ⟨_, h2⟩
  rw [h2]
  cases hl : liveCreate ops <;> cases hc : hasCleanup ops <;> simp

theorem C1_witness :
    (runOps ⟨"demo", "lib", none, []⟩
        [(Op.create, envT), (Op.cleanupOp, envT), (Op.create, envT)]).project_path
      = (if liveCreate [(Op.create, envT), (Op.cleanupOp, envT), (Op.create, envT)]
          then some "demo" else none) :=
  C1_path_iff_live_create "demo" "lib" []
    [(Op.create, envT), (Op.cleanupOp, envT), (Op.create, envT)]
    (by
      intro a ha hins
      rcases List.mem_cons.mp ha with rfl | hb
      · rfl
      rcases List.mem_cons.mp hb with rfl | hc
      · rfl
      rcases List.mem_cons.mp hc with rfl | hd
      · rfl
      · cases hd)
